import Mathlib

/-!
Shallow embedding of the companion reward engine of `src/app.py`:
rarity classification, mystery-box pricing and rolling, the purchase
operation, the daily airdrop, bond XP and the collection score.
Machine integers are modelled as `Nat`/`Int`; timestamps as `Int`
seconds; the float expression `int(sum(total_stats * 0.7))` is modelled
in exact arithmetic as `7 * sum / 10` (floor division) on `Nat`.
Randomness (`random.choice`, `random.random`) is modelled by explicit
draw parameters.
-/

/-- The three derived rarities. -/

inductive Rarity where
  | Common
  | Rare
  | Legendary
deriving DecidableEq, Repr

/-- The fixed set of trait names a companion has stats for. -/

inductive Trait where
  | wit
  | empathy
  | creativity
  | knowledge
  | boldness
deriving DecidableEq, Repr

/-- All traits, in display order. -/

def Trait.all : List Trait :=
  [Trait.wit, Trait.empathy, Trait.creativity, Trait.knowledge, Trait.boldness]

/-- A companion stat block: one integer per trait. -/

structure Stats where
  wit : Nat
  empathy : Nat
  creativity : Nat
  knowledge : Nat
  boldness : Nat
deriving DecidableEq, Repr

/-- Look up one trait value, as `companion["stats"][name]` does. -/

def Stats.get (s : Stats) : Trait → Nat
  | Trait.wit => s.wit
  | Trait.empathy => s.empathy
  | Trait.creativity => s.creativity
  | Trait.knowledge => s.knowledge
  | Trait.boldness => s.boldness

/-- The value sum, as `sum(companion["stats"].values())` does. -/

def Stats.total (s : Stats) : Nat :=
  s.wit + s.empathy + s.creativity + s.knowledge + s.boldness

/-- A catalog companion record. `rarity` is the static JSON tag (may be
absent), `total_stats` the optional precomputed stat sum; readers supply
their own defaults exactly as the `dict.get` calls in the source do. -/

structure Companion where
  id : String
  name : String
  rarity : Option String
  stats : Stats
  total_stats : Option Nat
deriving DecidableEq, Repr

/-- The stats-derived rarity thresholds of `get_actual_rarity`, as a
function of the integer stat total. -/

def classify (total_stats : Int) : Rarity :=
  if total_stats ≥ 400 then Rarity.Legendary
  else if total_stats ≥ 350 then Rarity.Rare
  else Rarity.Common

/-- Embeds `get_actual_rarity(companion)`: reads
`companion.get("total_stats", sum(companion.get("stats", {}).values()))`
and applies the fixed thresholds. -/

def get_actual_rarity (companion : Companion) : Rarity :=
  classify (companion.total_stats.getD companion.stats.total : Nat)

/-- The three purchase tiers. -/

inductive MysteryTier where
  | Basic
  | Premium
  | Elite
deriving DecidableEq, Repr

/-- Embeds `MYSTERY_COST`: tier prices in tokens. -/

def MYSTERY_COST : MysteryTier → Int
  | MysteryTier.Basic => 50
  | MysteryTier.Premium => 150
  | MysteryTier.Elite => 400

/-- Embeds `MYSTERY_ODDS`: per-tier weight of each rarity. -/

def MYSTERY_ODDS : MysteryTier → Rarity → Nat
  | MysteryTier.Basic, Rarity.Common => 80
  | MysteryTier.Basic, Rarity.Rare => 18
  | MysteryTier.Basic, Rarity.Legendary => 2
  | MysteryTier.Premium, Rarity.Common => 30
  | MysteryTier.Premium, Rarity.Rare => 50
  | MysteryTier.Premium, Rarity.Legendary => 20
  | MysteryTier.Elite, Rarity.Common => 10
  | MysteryTier.Elite, Rarity.Rare => 30
  | MysteryTier.Elite, Rarity.Legendary => 60

/-- Embeds `get_mystery_tier_from_companion(companion)`: the tier a companion is
sold as for a specific purchase. Note it reads
`companion.get("total_stats", 0)` and uses thresholds 400/300, not the
rarity thresholds 400/350. -/

def get_mystery_tier_from_companion (companion : Companion) : MysteryTier :=
  let total_stats := companion.total_stats.getD 0
  if total_stats ≥ 400 then MysteryTier.Elite
  else if total_stats ≥ 300 then MysteryTier.Premium
  else MysteryTier.Basic

/-- Modelled from the spec: the tier price implied by a stats-derived
rarity (Common→50, Rare→150, Legendary→400), used to compare the
source pricing against the claimed rarity-mapped pricing. -/

def spec_price_for_rarity : Rarity → Int
  | Rarity.Common => 50
  | Rarity.Rare => 150
  | Rarity.Legendary => 400

/-- Embeds `should_show_companion_identity(companion)`: per-call coin flips on the
static `rarity` tag. The three `random.random()` draws are modelled by the
explicit rational parameters `r1 r2 r3` (each in `[0,1)`). -/

def should_show_companion_identity (companion : Companion) (r1 r2 r3 : ℚ) : Bool :=
  if companion.rarity = some "Legendary" ∧ r1 < 2/5 then true
  else if companion.rarity = some "Rare" ∧ r2 < 1/5 then true
  else if companion.rarity = some "Common" ∧ r3 < 1/10 then true
  else false

/-- Embeds `DAILY_AIRDROP`: the fixed daily grant. -/

def DAILY_AIRDROP : Int := 150

/-- A user row as read from the `users` table. Timestamps are `Int`
seconds; `last_airdrop` may be null. -/

structure User where
  id : String
  auth_uid : String
  tokens : Int
  last_airdrop : Option Int
  created_at : Int
  bond_xp : Nat
  bond_level : Nat
  bond_title : String
  collection_score : Nat
  collection_level : Nat
  collection_title : String
deriving DecidableEq, Repr

/-- Embeds `apply_daily_airdrop(user)`: reads
`last = user["last_airdrop"] or user["created_at"]` and credits
`DAILY_AIRDROP` and stamps `last_airdrop = now` when at least 24h (86400
seconds) have elapsed since `last`; otherwise returns the user unchanged. -/

def apply_daily_airdrop (now : Int) (user : User) : User :=
  let last : Int := user.last_airdrop.getD user.created_at
  if now - last ≥ 86400 then
    { user with tokens := user.tokens + DAILY_AIRDROP, last_airdrop := some now }
  else user

/-- The weighted pool of `roll_mystery_companion`, for a given weight per
rarity: each candidate repeated `odds[get_actual_rarity(c)]` times. -/

def weighted_pool (odds : Rarity → Nat) (available : List Companion) : List Companion :=
  available.flatMap (fun c => List.replicate (odds (get_actual_rarity c)) c)

/-- The body of `roll_mystery_companion` after `odds = MYSTERY_ODDS[tier]`:
draw uniformly from the weighted pool, falling back to a uniform draw over
`available` when the weighted pool is empty. The random draw is modelled by
the index parameter `k` (`random.choice` of an empty list, which would raise,
is modelled as `none`). -/

def roll_with_odds (odds : Rarity → Nat) (available : List Companion) (k : Nat) :
    Option Companion :=
  let weighted_companions := weighted_pool odds available
  if weighted_companions.length ≠ 0 then
    weighted_companions.get? (k % weighted_companions.length)
  else
    available.get? (k % available.length)

/-- Embeds `roll_mystery_companion(mystery_tier, available_companions)`. -/

def roll_mystery_companion (mystery_tier : MysteryTier) (available : List Companion)
    (k : Nat) : Option Companion :=
  roll_with_odds (MYSTERY_ODDS mystery_tier) available k

/-- The failure modes of the purchase path: the messages
"Not enough 💎", "Already owned" and "No more companions available!". -/

inductive BuyError where
  | InsufficientFunds
  | AlreadyOwned
  | NoCompanionsAvailable
deriving DecidableEq, Repr

/-- The mystery branch of `buy_mystery_box_hybrid` (pool construction,
empty-pool failure, roll, and the defensive re-roll safety check), with the
two potential random draws modelled by `k` and `k2`. -/

def mystery_roll_operation (catalog : List Companion) (owned_ids : List String)
    (mystery_tier : MysteryTier) (k k2 : Nat) : Except BuyError Companion :=
  let available := catalog.filter (fun c => decide (c.id ∉ owned_ids))
  if available.isEmpty then Except.error BuyError.NoCompanionsAvailable
  else
    match roll_mystery_companion mystery_tier available k with
    | none => Except.error BuyError.NoCompanionsAvailable
    | some chosen =>
      if chosen.id ∈ owned_ids then
        let available2 := available.filter (fun c => decide (c.id ≠ chosen.id))
        if available2.isEmpty then Except.error BuyError.NoCompanionsAvailable
        else
          match roll_mystery_companion mystery_tier available2 k2 with
          | none => Except.error BuyError.NoCompanionsAvailable
          | some chosen2 => Except.ok chosen2
      else Except.ok chosen

/-- One row of the `collection` table. -/

structure OwnershipRecord where
  companion_id : String
  revealed : Bool
  mystery_tier : MysteryTier
  bonded_at : Int
deriving DecidableEq, Repr

/-- The persistent state a purchase touches: the user row of the buyer and
the rows of the buyer in the `collection` table. -/

structure DB where
  user : User
  collection : List OwnershipRecord
deriving DecidableEq, Repr

/-- The effective stat total
`companion.get("total_stats", sum(companion.get("stats", {}).values()))`. -/

def effective_total_stats (c : Companion) : Nat :=
  c.total_stats.getD c.stats.total

/-- Base score: `int(sum(total_stats * 0.7))` in exact arithmetic. -/

def base_score (user_companions : List Companion) : Nat :=
  7 * (user_companions.map effective_total_stats).sum / 10

/-- How many owned companions have the given trait at value 80 or more. -/

def trait_count (user_companions : List Companion) (t : Trait) : Nat :=
  (user_companions.filter (fun c => decide (80 ≤ c.stats.get t))).length

/-- Embeds `stat_groups`: per trait, names of owned companions with that trait at
80 or more (dict lookup with default `[]`). -/

def stat_groups (user_companions : List Companion) (t : Trait) : List String :=
  (user_companions.filter (fun c => decide (80 ≤ c.stats.get t))).map Companion.name

/-- Synergy contribution of one trait: `25 * count` when at least two owned
companions share that high trait. -/

def synergy_for_trait (user_companions : List Companion) (t : Trait) : Nat :=
  if 2 ≤ trait_count user_companions t then 25 * trait_count user_companions t else 0

/-- Synergy bonus, summed over all traits. -/

def synergy_bonus (user_companions : List Companion) : Nat :=
  (Trait.all.map (synergy_for_trait user_companions)).sum

/-- Rarity bonus points of one companion. -/

def rarity_points : Rarity → Nat
  | Rarity.Common => 0
  | Rarity.Rare => 50
  | Rarity.Legendary => 125

/-- Rarity bonus over the owned set. -/

def rarity_bonus (user_companions : List Companion) : Nat :=
  (user_companions.map (fun c => rarity_points (get_actual_rarity c))).sum

/-- Embeds `rarity_counts`: how many owned companions have each derived rarity. -/

def rarity_count (user_companions : List Companion) (r : Rarity) : Nat :=
  (user_companions.filter (fun c => decide (get_actual_rarity c = r))).length

/-- Collection-size achievement points (highest tier only). -/

def collection_size_bonus (n : Nat) : Nat :=
  if 15 ≤ n then 300 else if 8 ≤ n then 100 else if 3 ≤ n then 50 else 0

/-- Collection-size achievement labels. -/

def collection_size_achievements (n : Nat) : List String :=
  if 15 ≤ n then ["Mega Collector (15+ companions)"]
  else if 8 ≤ n then ["Growing Collection (8+ companions)"]
  else if 3 ≤ n then ["First Steps (3+ companions)"]
  else []

/-- Legendary-count achievement points (highest tier only). -/

def legendary_tier_bonus (n : Nat) : Nat :=
  if 5 ≤ n then 500 else if 2 ≤ n then 150 else if 1 ≤ n then 75 else 0

/-- Legendary-count achievement labels. -/

def legendary_tier_achievements (n : Nat) : List String :=
  if 5 ≤ n then ["Legend Master (5+ Legendaries)"]
  else if 2 ≤ n then ["Legend Collector (2+ Legendaries)"]
  else if 1 ≤ n then ["First Legend"]
  else []

/-- Diversity achievement: all three rarities present. -/

def diversity_bonus (user_companions : List Companion) : Nat :=
  if 0 < rarity_count user_companions Rarity.Common ∧
      0 < rarity_count user_companions Rarity.Rare ∧
      0 < rarity_count user_companions Rarity.Legendary then 200 else 0

/-- Whether a companion has any single trait at 95 or more. -/

def has_high_stat (c : Companion) : Bool :=
  Trait.all.any (fun t => decide (95 ≤ c.stats.get t))

/-- High-stat achievement, awarded at most once (the source loop breaks
after the first qualifying companion). -/

def perfectionist_bonus (user_companions : List Companion) : Nat :=
  if user_companions.any has_high_stat then 100 else 0

/-- Total achievement points. -/

def achievement_bonus (user_companions : List Companion) : Nat :=
  collection_size_bonus user_companions.length +
    legendary_tier_bonus (rarity_count user_companions Rarity.Legendary) +
    diversity_bonus user_companions +
    perfectionist_bonus user_companions

/-- Embeds `achievements_earned`, in the order the source appends them. -/

def achievements_earned (user_companions : List Companion) : List String :=
  collection_size_achievements user_companions.length ++
    legendary_tier_achievements (rarity_count user_companions Rarity.Legendary) ++
    (if 0 < rarity_count user_companions Rarity.Common ∧
        0 < rarity_count user_companions Rarity.Rare ∧
        0 < rarity_count user_companions Rarity.Legendary
      then ["Rarity Master (All tiers)"] else []) ++
    (if user_companions.any has_high_stat then ["Stat Perfectionist (95+ stat)"] else [])

/-- The `breakdown` dict of `calculate_collection_score`. -/

structure ScoreBreakdown where
  base_score : Nat
  synergy_bonus : Nat
  rarity_bonus : Nat
  achievement_bonus : Nat
  stat_groups : Trait → List String
  rarity_counts : Rarity → Nat
  achievements_earned : List String

/-- The return value of `calculate_collection_score`: the empty-collection
early return carries an empty breakdown, modelled as `none`. -/

structure ScoreResult where
  total : Nat
  breakdown : Option ScoreBreakdown

/-- Embeds `calculate_collection_score(user_id)`, over the list of owned
companions (`[CID2COMP[cid] for cid in owned_ids]`). -/

def calculate_collection_score (user_companions : List Companion) : ScoreResult :=
  if user_companions.isEmpty then { total := 0, breakdown := none }
  else
    { total := base_score user_companions + synergy_bonus user_companions +
        rarity_bonus user_companions + achievement_bonus user_companions
      breakdown := some
        { base_score := base_score user_companions
          synergy_bonus := synergy_bonus user_companions
          rarity_bonus := rarity_bonus user_companions
          achievement_bonus := achievement_bonus user_companions
          stat_groups := stat_groups user_companions
          rarity_counts := rarity_count user_companions
          achievements_earned := achievements_earned user_companions } }

/-- Embeds `get_collection_level_info(collection_score)`. -/

def get_collection_level_info (collection_score : Nat) : Nat × String × Nat × Nat :=
  if collection_score < 1000 then (1, "Rookie Collector", 0, 1000)
  else if collection_score < 3000 then (2, "Bond Enthusiast", 1000, 3000)
  else if collection_score < 6000 then (3, "Collection Curator", 3000, 6000)
  else if collection_score < 10000 then (4, "Master Collector", 6000, 10000)
  else if collection_score < 15000 then (5, "Collection Legend", 10000, 15000)
  else (6, "Grandmaster", 15000, 25000)

/-- The companion records of the owned ids (`CID2COMP[cid]`). -/

def owned_companions (catalog : List Companion) (owned_ids : List String) :
    List Companion :=
  owned_ids.filterMap (fun cid => catalog.find? (fun c => decide (c.id = cid)))

/-- Embeds `update_user_collection_score(user_id)`: recompute the score from the
owned set and persist score, level and title on the user row. -/

def update_user_collection_score (catalog : List Companion) (db : DB) : DB :=
  let score := (calculate_collection_score
    (owned_companions catalog (db.collection.map OwnershipRecord.companion_id))).total
  let info := get_collection_level_info score
  { db with user := { db.user with
      collection_score := score
      collection_level := info.1
      collection_title := info.2.1 } }

/-- Result of `buy_mystery_box_hybrid`: the failure message, or the wallet
returned by `apply_daily_airdrop(fresh)` together with the chosen companion. -/

inductive BuyResult where
  | failure (error : BuyError)
  | success (wallet : User) (chosen : Companion)
deriving DecidableEq, Repr

/-- Embeds `buy_mystery_box_hybrid(user, mystery_tier, specific_companion)`:
price check, already-owned check (specific) or pool/roll (mystery), then
debit, insert of the ownership record, collection-score update, and the
daily airdrop on the fresh row. `now` is the current time and `k`, `k2`
the random draws. -/

def buy_mystery_box_hybrid (catalog : List Companion) (now : Int) (k k2 : Nat)
    (db : DB) (mystery_tier : MysteryTier) (specific_companion : Option Companion) :
    BuyResult × DB :=
  let price := MYSTERY_COST mystery_tier
  if price > db.user.tokens then (BuyResult.failure BuyError.InsufficientFunds, db)
  else
    let chosen? : Except BuyError Companion :=
      match specific_companion with
      | some c =>
        if c.id ∈ db.collection.map OwnershipRecord.companion_id then
          Except.error BuyError.AlreadyOwned
        else Except.ok c
      | none =>
        mystery_roll_operation catalog (db.collection.map OwnershipRecord.companion_id)
          mystery_tier k k2
    match chosen? with
    | Except.error e => (BuyResult.failure e, db)
    | Except.ok chosen =>
      let debited : DB := { db with user := { db.user with tokens := db.user.tokens - price } }
      let record : OwnershipRecord :=
        { companion_id := chosen.id
          revealed := specific_companion.isSome
          mystery_tier := mystery_tier
          bonded_at := now }
      let inserted : DB := { debited with collection := record :: debited.collection }
      let scored : DB := update_user_collection_score catalog inserted
      let wallet := apply_daily_airdrop now scored.user
      (BuyResult.success wallet chosen, { scored with user := wallet })

/-- Embeds `get_bond_level_info(bond_xp)`. -/

def get_bond_level_info (bond_xp : Nat) : Nat × String × Nat × Nat :=
  if bond_xp < 500 then (1, "Bond Newbie", 0, 500)
  else if bond_xp < 1500 then (2, "Heart Hacker", 500, 1500)
  else if bond_xp < 3000 then (3, "Soul Syncer", 1500, 3000)
  else if bond_xp < 5000 then (4, "Bond Virtuoso", 3000, 5000)
  else (5, "Love Legend", 5000, 10000)

/-- Embeds `update_user_bond_xp(user_id, xp_to_add)`: add the XP, recompute level
and title from the table, and persist the three fields together. -/

def update_user_bond_xp (user : User) (xp_to_add : Nat) : User :=
  let new_xp := user.bond_xp + xp_to_add
  let info := get_bond_level_info new_xp
  { user with bond_xp := new_xp, bond_level := info.1, bond_title := info.2.1 }

/-- The XP amount of `award_chat_xp`: base 1 plus a quality bonus of 4 for
messages longer than 20 characters. -/

def chat_xp_amount (message_length : Nat) : Nat :=
  1 + (if message_length > 20 then 4 else 0)

/-- Embeds `award_chat_xp(user_id, companion_id, message_length)` restricted to the
user row it updates via `update_user_bond_xp`; returns the updated row and
the awarded XP. -/

def award_chat_xp (user : User) (message_length : Nat) : User × Nat :=
  (update_user_bond_xp user (chat_xp_amount message_length), chat_xp_amount message_length)

/-- A companion used as a concrete witness input. -/

def witness_companion : Companion :=
  { id := "w1", name := "W1", rarity := none
    stats := { wit := 1, empathy := 1, creativity := 1, knowledge := 1, boldness := 1 }
    total_stats := none }

/-- A Common-rarity companion whose stored stat total 320 falls in the
tier band `[300, 350)`. -/

def c320 : Companion :=
  { id := "c320", name := "C320", rarity := none
    stats := { wit := 64, empathy := 64, creativity := 64, knowledge := 64, boldness := 64 }
    total_stats := some 320 }

/-- A buyer state for the C4 counterexample run: 1000 tokens, nothing
owned, last airdrop 100 seconds ago. -/

def db_c4 : DB :=
  { user :=
      { id := "u4", auth_uid := "a4", tokens := 1000, last_airdrop := some 99900
        created_at := 0, bond_xp := 0, bond_level := 1, bond_title := "Bond Newbie"
        collection_score := 0, collection_level := 1
        collection_title := "Rookie Collector" }
    collection := [] }

/-- A Rare companion with stored total 360, for the C4 witness. -/

def c360 : Companion :=
  { id := "c360", name := "C360", rarity := none
    stats := { wit := 72, empathy := 72, creativity := 72, knowledge := 72, boldness := 72 }
    total_stats := some 360 }

/-- A cheap Common companion for the C5 states. -/

def comp_a : Companion :=
  { id := "a", name := "A", rarity := none
    stats := { wit := 10, empathy := 10, creativity := 10, knowledge := 10, boldness := 10 }
    total_stats := some 100 }

/-- A buyer who already owns `comp_a` but holds only 10 tokens. -/

def db_c5 : DB :=
  { user :=
      { id := "u5", auth_uid := "a5", tokens := 10, last_airdrop := some 0
        created_at := 0, bond_xp := 0, bond_level := 1, bond_title := "Bond Newbie"
        collection_score := 70, collection_level := 1
        collection_title := "Rookie Collector" }
    collection :=
      [{ companion_id := "a", revealed := true, mystery_tier := MysteryTier.Basic
         bonded_at := 0 }] }

/-- A buyer who already owns `comp_a` and can afford another attempt. -/

def db_c5w : DB :=
  { user :=
      { id := "u5w", auth_uid := "a5w", tokens := 100, last_airdrop := some 0
        created_at := 0, bond_xp := 0, bond_level := 1, bond_title := "Bond Newbie"
        collection_score := 70, collection_level := 1
        collection_title := "Rookie Collector" }
    collection :=
      [{ companion_id := "a", revealed := true, mystery_tier := MysteryTier.Basic
         bonded_at := 0 }] }

/-- A user whose stored `last_airdrop` predates the account creation time:
25h since the last airdrop but only 50000 seconds since creation. -/

def u_c6 : User :=
  { id := "u6", auth_uid := "a6", tokens := 0, last_airdrop := some 100000
    created_at := 150000, bond_xp := 0, bond_level := 1, bond_title := "Bond Newbie"
    collection_score := 0, collection_level := 1, collection_title := "Rookie Collector" }

/-- A user eligible for the airdrop at `now = 100000`. -/

def u_c6w : User :=
  { id := "u6w", auth_uid := "a6w", tokens := 20, last_airdrop := none
    created_at := 0, bond_xp := 0, bond_level := 1, bond_title := "Bond Newbie"
    collection_score := 0, collection_level := 1, collection_title := "Rookie Collector" }

/-- A companion whose static catalog tag is "Legendary". -/

def legendary_tagged : Companion :=
  { id := "leg", name := "Leg", rarity := some "Legendary"
    stats := { wit := 90, empathy := 90, creativity := 90, knowledge := 90, boldness := 90 }
    total_stats := some 450 }

/-- A cheap Common companion for the C10 runs. -/

def comp_b : Companion :=
  { id := "b", name := "B", rarity := none
    stats := { wit := 10, empathy := 10, creativity := 10, knowledge := 10, boldness := 10 }
    total_stats := some 100 }

/-- A buyer created 3600 seconds ago whose stored `last_airdrop` is 90000
seconds old. -/

def db_c10 : DB :=
  { user :=
      { id := "u10", auth_uid := "a10", tokens := 1000, last_airdrop := some 10000
        created_at := 96400, bond_xp := 0, bond_level := 1, bond_title := "Bond Newbie"
        collection_score := 0, collection_level := 1
        collection_title := "Rookie Collector" }
    collection := [] }

/-- A buyer eligible for the airdrop at purchase time. -/

def db_c10w : DB :=
  { user :=
      { id := "uw", auth_uid := "aw", tokens := 1000, last_airdrop := some 0
        created_at := 0, bond_xp := 0, bond_level := 1, bond_title := "Bond Newbie"
        collection_score := 0, collection_level := 1
        collection_title := "Rookie Collector" }
    collection := [] }

/-- The wallet returned by the C10 witness run. -/

def w10 : User :=
  { id := "uw", auth_uid := "aw", tokens := 1100, last_airdrop := some 100000
    created_at := 0, bond_xp := 0, bond_level := 1, bond_title := "Bond Newbie"
    collection_score := 70, collection_level := 1
    collection_title := "Rookie Collector" }

/-- C2: the rarity classifier is a pure, total function of `total_stats`
alone, with `total_stats ≥ 400 ↔ Legendary`, `350 ≤ total_stats < 400 ↔
Rare`, `total_stats < 350 ↔ Common`, the four boundary values 349/350/399/400
as stated, stability under repeated application, and `get_actual_rarity`
equal to `classify` of the effective stat total of the companion. -/
theorem classify_thresholds (t : Int) :
    (classify t = Rarity.Legendary ↔ 400 ≤ t) ∧
    (classify t = Rarity.Rare ↔ 350 ≤ t ∧ t < 400) ∧
    (classify t = Rarity.Common ↔ t < 350) ∧
    classify 349 = Rarity.Common ∧
    classify 350 = Rarity.Rare ∧
    classify 399 = Rarity.Rare ∧
    classify 400 = Rarity.Legendary ∧
    classify t = classify t ∧
    (∀ c : Companion, get_actual_rarity c = classify (c.total_stats.getD c.stats.total : Nat)) := by
  refine ⟨?_, ?_, ?_, by decide, by decide, by decide, by decide, rfl, fun c => rfl⟩
  · unfold classify
    split_ifs with h1 h2 <;> simp_all
  · unfold classify
    split_ifs with h1 h2 <;> simp_all
  · unfold classify
    split_ifs with h1 h2 <;> simp_all
    omega

/-- Witness for C2 at the boundary input 350. -/
theorem classify_thresholds_witness :
    (350 : Int) ≤ 350 ∧ (350 : Int) < 400 ∧ classify 350 = Rarity.Rare := by
  refine ⟨by decide, by decide, ?_⟩
  exact ((classify_thresholds 350).2.1).mpr ⟨by decide, by decide⟩

/-- C1 counterexample: for the empty owned set the recomputation returns
total 0 with an empty breakdown, so the returned value does not carry the
base/synergy/rarity/achievement subtotals there. -/
theorem collection_score_empty_has_no_breakdown :
    (calculate_collection_score []).breakdown = none ∧
    (calculate_collection_score []).total = 0 :=
  ⟨rfl, rfl⟩

/-- C1 (amended): the total always equals base + synergy + rarity +
achievement (each computed as in the source), the empty owned set returns
total 0 with an empty breakdown, and every nonempty owned set returns the
full breakdown with consistent subtotals and the fired achievements. -/
theorem collection_score_breakdown_consistency (user_companions : List Companion) :
    (calculate_collection_score user_companions).total =
      base_score user_companions + synergy_bonus user_companions +
        rarity_bonus user_companions + achievement_bonus user_companions ∧
    calculate_collection_score [] = { total := 0, breakdown := none } ∧
    (user_companions ≠ [] →
      ∃ b, (calculate_collection_score user_companions).breakdown = some b ∧
        b.base_score = base_score user_companions ∧
        b.synergy_bonus = synergy_bonus user_companions ∧
        b.rarity_bonus = rarity_bonus user_companions ∧
        b.achievement_bonus = achievement_bonus user_companions ∧
        b.achievements_earned = achievements_earned user_companions ∧
        b.base_score + b.synergy_bonus + b.rarity_bonus + b.achievement_bonus =
          (calculate_collection_score user_companions).total) := by
  refine ⟨?_, rfl, ?_⟩
  · cases user_companions with
    | nil => decide
    | cons c l => rfl
  · intro h
    have hne : user_companions.isEmpty = false := by
      cases user_companions with
      | nil => exact absurd rfl h
      | cons c l => rfl
    refine ⟨{ base_score := base_score user_companions
              synergy_bonus := synergy_bonus user_companions
              rarity_bonus := rarity_bonus user_companions
              achievement_bonus := achievement_bonus user_companions
              stat_groups := stat_groups user_companions
              rarity_counts := rarity_count user_companions
              achievements_earned := achievements_earned user_companions },
        ?_, rfl, rfl, rfl, rfl, rfl, ?_⟩ <;>
      simp [calculate_collection_score, hne]

/-- Witness for C1 at a concrete one-companion owned set. -/
theorem collection_score_breakdown_consistency_witness :
    (calculate_collection_score [witness_companion]).total =
      base_score [witness_companion] + synergy_bonus [witness_companion] +
        rarity_bonus [witness_companion] + achievement_bonus [witness_companion] ∧
    ∃ b, (calculate_collection_score [witness_companion]).breakdown = some b ∧
      b.base_score = base_score [witness_companion] ∧
      b.synergy_bonus = synergy_bonus [witness_companion] ∧
      b.rarity_bonus = rarity_bonus [witness_companion] ∧
      b.achievement_bonus = achievement_bonus [witness_companion] ∧
      b.achievements_earned = achievements_earned [witness_companion] ∧
      b.base_score + b.synergy_bonus + b.rarity_bonus + b.achievement_bonus =
        (calculate_collection_score [witness_companion]).total :=
  ⟨(collection_score_breakdown_consistency [witness_companion]).1,
    (collection_score_breakdown_consistency [witness_companion]).2.2
      (List.cons_ne_nil _ _)⟩

/-- Members of the weighted pool are candidates. -/
theorem mem_of_mem_weighted_pool {odds : Rarity → Nat} {available : List Companion}
    {c : Companion} (h : c ∈ weighted_pool odds available) : c ∈ available := by
  unfold weighted_pool at h
  rcases List.mem_flatMap.1 h with ⟨a, ha, hrep⟩
  rwa [List.eq_of_mem_replicate hrep]

/-- A successful weighted roll returns a member of the candidate pool. -/
theorem roll_with_odds_mem {odds : Rarity → Nat} {available : List Companion}
    {k : Nat} {c : Companion} (h : roll_with_odds odds available k = some c) :
    c ∈ available := by
  simp only [roll_with_odds] at h
  split at h
  · exact mem_of_mem_weighted_pool (List.get?_mem h)
  · exact List.get?_mem h

/-- A successful `roll_mystery_companion` returns a member of the pool. -/
theorem roll_mystery_companion_mem {mystery_tier : MysteryTier}
    {available : List Companion} {k : Nat} {c : Companion}
    (h : roll_mystery_companion mystery_tier available k = some c) : c ∈ available :=
  roll_with_odds_mem h

/-- C3: the mystery roll fails with `NoCompanionsAvailable` on an empty
candidate pool; a returned companion is never one of the excluded ids; and
when every candidate has weight zero the draw falls back to a uniform draw
over the whole candidate pool. -/
theorem mystery_roll_exclusivity (catalog : List Companion) (owned_ids : List String)
    (mystery_tier : MysteryTier) (k k2 : Nat) :
    (catalog.filter (fun c => decide (c.id ∉ owned_ids)) = [] →
      mystery_roll_operation catalog owned_ids mystery_tier k k2 =
        Except.error BuyError.NoCompanionsAvailable) ∧
    (∀ c, mystery_roll_operation catalog owned_ids mystery_tier k k2 = Except.ok c →
      c.id ∉ owned_ids) ∧
    (∀ (odds : Rarity → Nat) (available : List Companion) (j : Nat),
      (∀ c ∈ available, odds (get_actual_rarity c) = 0) →
      roll_with_odds odds available j = available.get? (j % available.length)) := by
  refine ⟨?_, ?_, ?_⟩
  · intro h
    unfold mystery_roll_operation
    rw [h]
    rfl
  · intro c hc
    simp only [mystery_roll_operation] at hc
    split at hc
    · exact absurd hc (by simp)
    · rename_i hne
      split at hc
      · exact absurd hc (by simp)
      · rename_i chosen hroll
        split at hc
        · rename_i hmem
          split at hc
          · exact absurd hc (by simp)
          · split at hc
            · exact absurd hc (by simp)
            · rename_i chosen2 hroll2
              have h2 := roll_mystery_companion_mem hroll2
              have h3 := List.mem_filter.1 h2
              have h4 := List.mem_filter.1 h3.1
              have := of_decide_eq_true h4.2
              cases hc
              exact this
        · rename_i hmem
          cases hc
          have h3 := List.mem_filter.1 (roll_mystery_companion_mem hroll)
          exact of_decide_eq_true h3.2
  · intro odds available j hzero
    have hpool : weighted_pool odds available = [] := by
      unfold weighted_pool
      induction available with
      | nil => rfl
      | cons a l ih =>
        rw [List.flatMap_cons, hzero a (List.mem_cons_self a l), List.replicate_zero,
          List.nil_append]
        exact ih (fun c hc => hzero c (List.mem_cons_of_mem a hc))
    unfold roll_with_odds
    rw [hpool]
    rfl

/-- Witness for C3: an empty pool fails, and a zero-weight draw falls back
to the uniform draw over the pool. -/
theorem mystery_roll_exclusivity_witness :
    mystery_roll_operation [witness_companion] [witness_companion.id]
        MysteryTier.Basic 0 0 = Except.error BuyError.NoCompanionsAvailable ∧
    roll_with_odds (fun _ => 0) [witness_companion] 3 = some witness_companion := by
  constructor
  · exact (mystery_roll_exclusivity [witness_companion] [witness_companion.id]
      MysteryTier.Basic 0 0).1 (by decide)
  · rw [(mystery_roll_exclusivity [] [] MysteryTier.Basic 0 0).2.2
      (fun _ => 0) [witness_companion] 3 (fun c _ => rfl)]
    rfl

/-- The function `update_user_collection_score` only rewrites the user row. -/
theorem update_user_collection_score_collection (catalog : List Companion) (db : DB) :
    (update_user_collection_score catalog db).collection = db.collection := rfl

/-- C4 counterexample: `c320` is Common by the stats-derived rarity, the
rarity-mapped price would be 50, yet the specific purchase (priced via
`get_mystery_tier_from_companion`) debits 150, leaving 850 of 1000 tokens. -/
theorem specific_price_not_rarity_price :
    get_actual_rarity c320 = Rarity.Common ∧
    spec_price_for_rarity (get_actual_rarity c320) = 50 ∧
    MYSTERY_COST (get_mystery_tier_from_companion c320) = 150 ∧
    (buy_mystery_box_hybrid [c320] 100000 0 0 db_c4
        (get_mystery_tier_from_companion c320) (some c320)).1 =
      BuyResult.success { db_c4.user with tokens := 850, collection_score := 224 } c320 ∧
    (850 : Int) ≠ db_c4.user.tokens - spec_price_for_rarity (get_actual_rarity c320) := by
  decide

/-- C4 (amended): the specific-purchase price is 400 when the stored
`total_stats` (default 0) is at least 400, 150 when it is in `[300, 400)`
and 50 below 300; for a companion with a stored total outside `[300, 350)`
this equals the tier price mapped from its stats-derived rarity. -/
theorem specific_purchase_price (c : Companion) :
    MYSTERY_COST (get_mystery_tier_from_companion c) =
      (if c.total_stats.getD 0 ≥ 400 then 400
       else if c.total_stats.getD 0 ≥ 300 then 150 else 50) ∧
    (∀ t : Nat, c.total_stats = some t → t < 300 ∨ 350 ≤ t →
      MYSTERY_COST (get_mystery_tier_from_companion c) =
        spec_price_for_rarity (get_actual_rarity c)) := by
  constructor
  · simp only [get_mystery_tier_from_companion]
    split_ifs <;> rfl
  · intro t ht hc
    simp only [get_mystery_tier_from_companion, get_actual_rarity, classify, ht,
      Option.getD_some]
    split_ifs <;> first | rfl | (exfalso; omega)

/-- Witness for C4 at the Rare companion `c360`. -/
theorem specific_purchase_price_witness :
    c360.total_stats = some 360 ∧ (360 < 300 ∨ 350 ≤ 360) ∧
    MYSTERY_COST (get_mystery_tier_from_companion c360) =
      spec_price_for_rarity (get_actual_rarity c360) :=
  ⟨rfl, Or.inr (by decide),
    (specific_purchase_price c360).2 360 rfl (Or.inr (by decide))⟩

/-- C5 counterexample: the funds check runs before the ownership check, so
an attempt on an already-owned companion with too few tokens fails with
`InsufficientFunds`, not `AlreadyOwned`. -/
theorem already_owned_masked_by_funds :
    comp_a.id ∈ db_c5.collection.map OwnershipRecord.companion_id ∧
    db_c5.user.tokens < MYSTERY_COST MysteryTier.Basic ∧
    buy_mystery_box_hybrid [comp_a] 0 0 0 db_c5 MysteryTier.Basic (some comp_a) =
      (BuyResult.failure BuyError.InsufficientFunds, db_c5) ∧
    BuyError.InsufficientFunds ≠ BuyError.AlreadyOwned := by
  decide

/-- C5 (amended): with insufficient tokens every purchase fails with
`InsufficientFunds` and changes nothing; with sufficient tokens a specific
purchase of an already-owned companion fails with `AlreadyOwned` and
changes nothing; and after a successful specific purchase a second attempt
on the same companion fails and leaves the post-purchase state (hence the
balance) unchanged. -/
theorem purchase_failure_semantics (catalog : List Companion) (now : Int)
    (k k2 : Nat) (db : DB) (mystery_tier : MysteryTier) (c : Companion) :
    (db.user.tokens < MYSTERY_COST mystery_tier →
      ∀ specific_companion,
        buy_mystery_box_hybrid catalog now k k2 db mystery_tier specific_companion =
          (BuyResult.failure BuyError.InsufficientFunds, db)) ∧
    (MYSTERY_COST mystery_tier ≤ db.user.tokens →
      c.id ∈ db.collection.map OwnershipRecord.companion_id →
      buy_mystery_box_hybrid catalog now k k2 db mystery_tier (some c) =
        (BuyResult.failure BuyError.AlreadyOwned, db)) ∧
    (∀ wallet chosen db1,
      buy_mystery_box_hybrid catalog now k k2 db mystery_tier (some c) =
        (BuyResult.success wallet chosen, db1) →
      ∀ now2 k3 k4 r db2,
        buy_mystery_box_hybrid catalog now2 k3 k4 db1 mystery_tier (some c) = (r, db2) →
        db2 = db1 ∧ ∃ e, r = BuyResult.failure e) := by
  refine ⟨?_, ?_, ?_⟩
  · intro h specific_companion
    simp only [buy_mystery_box_hybrid]
    rw [if_pos h]
  · intro h hmem
    simp only [buy_mystery_box_hybrid]
    rw [if_neg (not_lt.2 h), if_pos hmem]
  · intro wallet chosen db1 hbuy now2 k3 k4 r db2 hbuy2
    by_cases hp : db.user.tokens < MYSTERY_COST mystery_tier
    · simp only [buy_mystery_box_hybrid] at hbuy
      rw [if_pos hp] at hbuy
      exact absurd hbuy (by simp)
    · by_cases hmem : c.id ∈ db.collection.map OwnershipRecord.companion_id
      · simp only [buy_mystery_box_hybrid] at hbuy
        rw [if_neg hp, if_pos hmem] at hbuy
        exact absurd hbuy (by simp)
      · simp only [buy_mystery_box_hybrid] at hbuy
        rw [if_neg hp, if_neg hmem] at hbuy
        rw [Prod.mk.injEq] at hbuy
        obtain ⟨hres, hdb⟩ := hbuy
        have hmem1 : c.id ∈ db1.collection.map OwnershipRecord.companion_id := by
          rw [← hdb]
          exact List.mem_map.2 ⟨_, List.mem_cons_self _ _, rfl⟩
        by_cases hp2 : db1.user.tokens < MYSTERY_COST mystery_tier
        · simp only [buy_mystery_box_hybrid] at hbuy2
          rw [if_pos hp2, Prod.mk.injEq] at hbuy2
          exact ⟨hbuy2.2.symm, _, hbuy2.1.symm⟩
        · simp only [buy_mystery_box_hybrid] at hbuy2
          rw [if_neg hp2, if_pos hmem1, Prod.mk.injEq] at hbuy2
          exact ⟨hbuy2.2.symm, _, hbuy2.1.symm⟩

/-- Witness for C5: an affordable duplicate purchase fails with
`AlreadyOwned` and leaves the state unchanged. -/
theorem purchase_failure_semantics_witness :
    buy_mystery_box_hybrid [comp_a] 0 0 0 db_c5w MysteryTier.Basic (some comp_a) =
      (BuyResult.failure BuyError.AlreadyOwned, db_c5w) :=
  (purchase_failure_semantics [comp_a] 0 0 0 db_c5w MysteryTier.Basic comp_a).2.1
    (by decide) (by decide)

/-- C6 counterexample: the source gates on `last_airdrop or created_at`,
not on the maximum of the two, so at `now = 200000` it credits `u_c6` even
though less than 24h has passed since `max(last_airdrop, created_at)`. -/
theorem airdrop_not_gated_on_max :
    (200000 : Int) - max (u_c6.last_airdrop.getD u_c6.created_at) u_c6.created_at < 86400 ∧
    apply_daily_airdrop 200000 u_c6 ≠ u_c6 ∧
    (apply_daily_airdrop 200000 u_c6).tokens = u_c6.tokens + 150 ∧
    (apply_daily_airdrop 200000 u_c6).last_airdrop = some 200000 := by
  refine ⟨by decide, ?_, by decide, by decide⟩
  decide

/-- C6 (amended): `apply_daily_airdrop` credits exactly 150 tokens and
stamps `last_airdrop = now` exactly when 24h have elapsed since
`last_airdrop` (defaulting to the creation time when null), and otherwise
returns the user unchanged; hence a second call within 24h of a grant is a
no-op and a call at least 24h after a grant credits exactly 150 once more. -/
theorem apply_daily_airdrop_spec (now : Int) (u : User) :
    (86400 ≤ now - u.last_airdrop.getD u.created_at →
      apply_daily_airdrop now u =
        { u with tokens := u.tokens + 150, last_airdrop := some now }) ∧
    (now - u.last_airdrop.getD u.created_at < 86400 →
      apply_daily_airdrop now u = u) ∧
    (∀ now2 : Int, 86400 ≤ now - u.last_airdrop.getD u.created_at →
      now2 - now < 86400 →
      apply_daily_airdrop now2 (apply_daily_airdrop now u) = apply_daily_airdrop now u) ∧
    (∀ now2 : Int, 86400 ≤ now - u.last_airdrop.getD u.created_at →
      86400 ≤ now2 - now →
      (apply_daily_airdrop now2 (apply_daily_airdrop now u)).tokens =
        (apply_daily_airdrop now u).tokens + 150 ∧
      (apply_daily_airdrop now2 (apply_daily_airdrop now u)).last_airdrop =
        some now2) := by
  have hgrant : ∀ h : 86400 ≤ now - u.last_airdrop.getD u.created_at,
      apply_daily_airdrop now u =
        { u with tokens := u.tokens + 150, last_airdrop := some now } := by
    intro h
    simp only [apply_daily_airdrop]
    rw [if_pos h]
    rfl
  refine ⟨hgrant, ?_, ?_, ?_⟩
  · intro h
    simp only [apply_daily_airdrop]
    rw [if_neg (by omega)]
  · intro now2 h h2
    rw [hgrant h]
    simp only [apply_daily_airdrop, Option.getD_some]
    rw [if_neg (by omega)]
  · intro now2 h h2
    rw [hgrant h]
    simp only [apply_daily_airdrop, Option.getD_some]
    rw [if_pos (by omega)]
    exact ⟨rfl, rfl⟩

/-- Witness for C6: a grant at 100000, a no-op 100 seconds later, and a
fresh 150-token grant 86400 seconds after that. -/
theorem apply_daily_airdrop_spec_witness :
    apply_daily_airdrop 100000 u_c6w =
      { u_c6w with tokens := u_c6w.tokens + 150, last_airdrop := some 100000 } ∧
    apply_daily_airdrop 100100 (apply_daily_airdrop 100000 u_c6w) =
      apply_daily_airdrop 100000 u_c6w ∧
    (apply_daily_airdrop 186400 (apply_daily_airdrop 100000 u_c6w)).tokens =
      (apply_daily_airdrop 100000 u_c6w).tokens + 150 :=
  ⟨(apply_daily_airdrop_spec 100000 u_c6w).1 (by decide),
    (apply_daily_airdrop_spec 100000 u_c6w).2.2.1 100100 (by decide) (by decide),
    ((apply_daily_airdrop_spec 100000 u_c6w).2.2.2 186400 (by decide) (by decide)).1⟩

/-- C7: each chat message awards `1 + (4 if length > 20 else 0)` XP, the
stored XP increases by exactly that amount, and the persisted level and
title are recomputed together from the stored XP via the fixed cumulative
table, so the three fields never drift apart. -/
theorem award_chat_xp_spec (user : User) (message_length : Nat) :
    (award_chat_xp user message_length).2 =
      1 + (if message_length > 20 then 4 else 0) ∧
    (award_chat_xp user message_length).1.bond_xp =
      user.bond_xp + (award_chat_xp user message_length).2 ∧
    (award_chat_xp user message_length).1.bond_level =
      (get_bond_level_info (award_chat_xp user message_length).1.bond_xp).1 ∧
    (award_chat_xp user message_length).1.bond_title =
      (get_bond_level_info (award_chat_xp user message_length).1.bond_xp).2.1 ∧
    (∀ n : Nat,
      (n < 500 → get_bond_level_info n = (1, "Bond Newbie", 0, 500)) ∧
      (500 ≤ n → n < 1500 → get_bond_level_info n = (2, "Heart Hacker", 500, 1500)) ∧
      (1500 ≤ n → n < 3000 → get_bond_level_info n = (3, "Soul Syncer", 1500, 3000)) ∧
      (3000 ≤ n → n < 5000 → get_bond_level_info n = (4, "Bond Virtuoso", 3000, 5000)) ∧
      (5000 ≤ n → get_bond_level_info n = (5, "Love Legend", 5000, 10000))) := by
  refine ⟨rfl, rfl, rfl, rfl, ?_⟩
  intro n
  refine ⟨fun h => ?_, fun h1 h2 => ?_, fun h1 h2 => ?_, fun h1 h2 => ?_, fun h => ?_⟩ <;>
    simp only [get_bond_level_info] <;> split_ifs <;> first | rfl | (exfalso; omega)

/-- Witness for C7 at XP total 501 after a long message. -/
theorem award_chat_xp_spec_witness :
    (award_chat_xp
        { id := "u7", auth_uid := "a7", tokens := 0, last_airdrop := none
          created_at := 0, bond_xp := 496, bond_level := 1, bond_title := "Bond Newbie"
          collection_score := 0, collection_level := 1
          collection_title := "Rookie Collector" } 25).1.bond_xp = 501 ∧
    get_bond_level_info 501 = (2, "Heart Hacker", 500, 1500) :=
  ⟨rfl,
    ((award_chat_xp_spec
        { id := "u7", auth_uid := "a7", tokens := 0, last_airdrop := none
          created_at := 0, bond_xp := 496, bond_level := 1, bond_title := "Bond Newbie"
          collection_score := 0, collection_level := 1
          collection_title := "Rookie Collector" } 25).2.2.2.2 501).2.1
      (by decide) (by decide)⟩

/-- C8: the show-identity decision is not a function of the companion: for
the same catalog companion, the per-call `random.random()` draw 0.3 yields
`true` while the draw 0.5 yields `false`, so two evaluations within one
process can disagree. -/
theorem show_identity_not_deterministic :
    (0 : ℚ) ≤ 3 / 10 ∧ (3 / 10 : ℚ) < 1 ∧ (0 : ℚ) ≤ 1 / 2 ∧ (1 / 2 : ℚ) < 1 ∧
    should_show_companion_identity legendary_tagged (3 / 10) 0 0 = true ∧
    should_show_companion_identity legendary_tagged (1 / 2) (1 / 2) (1 / 2) = false ∧
    should_show_companion_identity legendary_tagged (3 / 10) 0 0 ≠
      should_show_companion_identity legendary_tagged (1 / 2) (1 / 2) (1 / 2) := by
  have htrue : should_show_companion_identity legendary_tagged (3 / 10) 0 0 = true := by
    simp only [should_show_companion_identity]
    rw [if_pos ⟨rfl, by norm_num⟩]
  have hfalse :
      should_show_companion_identity legendary_tagged (1 / 2) (1 / 2) (1 / 2) = false := by
    have h1 : ¬(legendary_tagged.rarity = some "Legendary" ∧ (1 / 2 : ℚ) < 2 / 5) := by
      rintro ⟨-, h⟩
      norm_num at h
    have h2 : ¬(legendary_tagged.rarity = some "Rare" ∧ (1 / 2 : ℚ) < 1 / 5) := by
      rintro ⟨h, -⟩
      simp [legendary_tagged] at h
    have h3 : ¬(legendary_tagged.rarity = some "Common" ∧ (1 / 2 : ℚ) < 1 / 10) := by
      rintro ⟨h, -⟩
      simp [legendary_tagged] at h
    simp only [should_show_companion_identity]
    rw [if_neg h1, if_neg h2, if_neg h3]
  refine ⟨by norm_num, by norm_num, by norm_num, by norm_num, htrue, hfalse, ?_⟩
  rw [htrue, hfalse]
  simp

/-- The function `update_user_collection_score` keeps the token balance. -/
theorem update_user_collection_score_tokens (catalog : List Companion) (db : DB) :
    (update_user_collection_score catalog db).user.tokens = db.user.tokens := rfl

/-- The function `update_user_collection_score` keeps the airdrop stamp. -/
theorem update_user_collection_score_last_airdrop (catalog : List Companion) (db : DB) :
    (update_user_collection_score catalog db).user.last_airdrop =
      db.user.last_airdrop := rfl

/-- The function `update_user_collection_score` keeps the creation time. -/
theorem update_user_collection_score_created_at (catalog : List Companion) (db : DB) :
    (update_user_collection_score catalog db).user.created_at =
      db.user.created_at := rfl

/-- Every successful purchase returns the wallet produced by
`apply_daily_airdrop` on the freshly debited user row. -/
theorem buy_success_wallet (catalog : List Companion) (now : Int) (k k2 : Nat)
    (db : DB) (mystery_tier : MysteryTier) (specific_companion : Option Companion)
    (wallet : User) (chosen : Companion)
    (h : (buy_mystery_box_hybrid catalog now k k2 db mystery_tier
        specific_companion).1 = BuyResult.success wallet chosen) :
    ∃ fresh : User, wallet = apply_daily_airdrop now fresh ∧
      fresh.tokens = db.user.tokens - MYSTERY_COST mystery_tier ∧
      fresh.last_airdrop = db.user.last_airdrop ∧
      fresh.created_at = db.user.created_at := by
  by_cases hp : db.user.tokens < MYSTERY_COST mystery_tier
  · simp only [buy_mystery_box_hybrid] at h
    rw [if_pos hp] at h
    exact absurd h (by simp)
  · simp only [buy_mystery_box_hybrid] at h
    rw [if_neg hp] at h
    split at h
    · exact absurd h (by simp)
    · rename_i chosen1 hch
      simp only [BuyResult.success.injEq] at h
      exact ⟨_, h.1.symm, rfl, rfl, rfl⟩

/-- C10 (amended): on every successful purchase, if at least 24h have
passed since `last_airdrop` (defaulting to the creation time when null)
the returned wallet holds `old - price + 150` tokens with
`last_airdrop = now`; otherwise it holds `old - price` tokens with
`last_airdrop` unchanged. -/
theorem purchase_airdrop_on_wallet (catalog : List Companion) (now : Int)
    (k k2 : Nat) (db : DB) (mystery_tier : MysteryTier)
    (specific_companion : Option Companion) (wallet : User) (chosen : Companion)
    (h : (buy_mystery_box_hybrid catalog now k k2 db mystery_tier
        specific_companion).1 = BuyResult.success wallet chosen) :
    (86400 ≤ now - db.user.last_airdrop.getD db.user.created_at →
      wallet.tokens = db.user.tokens - MYSTERY_COST mystery_tier + 150 ∧
      wallet.last_airdrop = some now) ∧
    (now - db.user.last_airdrop.getD db.user.created_at < 86400 →
      wallet.tokens = db.user.tokens - MYSTERY_COST mystery_tier ∧
      wallet.last_airdrop = db.user.last_airdrop) := by
  obtain ⟨fresh, hw, ht, hl, hc⟩ := buy_success_wallet catalog now k k2 db
    mystery_tier specific_companion wallet chosen h
  constructor
  · intro helig
    rw [hw]
    simp only [apply_daily_airdrop]
    rw [hl, hc, if_pos helig]
    exact ⟨by rw [ht]; rfl, rfl⟩
  · intro helig
    rw [hw]
    simp only [apply_daily_airdrop]
    rw [hl, hc, if_neg (by omega)]
    exact ⟨ht, hl⟩

/-- C10 counterexample: at `now = 100000` the buyer is ineligible under the
claimed `max(last_airdrop, created_at)` rule (only 3600 seconds since
account creation), yet the purchase returns `old - price + 150` tokens and
stamps `last_airdrop`, because the source gates on `last_airdrop` alone. -/
theorem purchase_airdrop_not_max_rule :
    (100000 : Int) - max (db_c10.user.last_airdrop.getD db_c10.user.created_at)
        db_c10.user.created_at < 86400 ∧
    (buy_mystery_box_hybrid [comp_b] 100000 0 0 db_c10 MysteryTier.Basic
        (some comp_b)).1 =
      BuyResult.success
        { db_c10.user with
            tokens := 1100
            last_airdrop := some 100000
            collection_score := 70 } comp_b ∧
    (1100 : Int) ≠ db_c10.user.tokens - MYSTERY_COST MysteryTier.Basic := by
  decide

/-- Witness for C10: an airdrop-eligible buyer ends at
`old - price + 150` tokens with the stamp set to the purchase time. -/
theorem purchase_airdrop_on_wallet_witness :
    (buy_mystery_box_hybrid [comp_b] 100000 0 0 db_c10w MysteryTier.Basic
        (some comp_b)).1 = BuyResult.success w10 comp_b ∧
    w10.tokens = db_c10w.user.tokens - MYSTERY_COST MysteryTier.Basic + 150 ∧
    w10.last_airdrop = some 100000 :=
  have h : (buy_mystery_box_hybrid [comp_b] 100000 0 0 db_c10w MysteryTier.Basic
      (some comp_b)).1 = BuyResult.success w10 comp_b := by decide
  ⟨h,
    ((purchase_airdrop_on_wallet [comp_b] 100000 0 0 db_c10w MysteryTier.Basic
        (some comp_b) w10 comp_b h).1 (by decide)).1,
    ((purchase_airdrop_on_wallet [comp_b] 100000 0 0 db_c10w MysteryTier.Basic
        (some comp_b) w10 comp_b h).1 (by decide)).2⟩

/-- The total of `calculate_collection_score` is always the sum of the four
components (for the empty set both sides are 0). -/
theorem calculate_collection_score_total (l : List Companion) :
    (calculate_collection_score l).total =
      base_score l + synergy_bonus l + rarity_bonus l + achievement_bonus l := by
  cases l with
  | nil => decide
  | cons a t => rfl

/-- Adding a companion never lowers the base score. -/
theorem base_score_cons_le (c : Companion) (l : List Companion) :
    base_score l ≤ base_score (c :: l) := by
  unfold base_score
  apply Nat.div_le_div_right
  apply Nat.mul_le_mul_left
  simp only [List.map_cons, List.sum_cons]
  exact Nat.le_add_left _ _

/-- Adding a companion never lowers the high-stat count of a trait. -/
theorem trait_count_cons_le (c : Companion) (l : List Companion) (t : Trait) :
    trait_count l t ≤ trait_count (c :: l) t := by
  unfold trait_count
  rw [List.filter_cons]
  split
  · exact Nat.le_succ _
  · exact Nat.le_refl _

/-- Adding a companion never lowers the synergy contribution of a trait. -/
theorem synergy_for_trait_cons_le (c : Companion) (l : List Companion) (t : Trait) :
    synergy_for_trait l t ≤ synergy_for_trait (c :: l) t := by
  have h := trait_count_cons_le c l t
  unfold synergy_for_trait
  split_ifs <;> omega

/-- Adding a companion never lowers the synergy bonus. -/
theorem synergy_bonus_cons_le (c : Companion) (l : List Companion) :
    synergy_bonus l ≤ synergy_bonus (c :: l) := by
  unfold synergy_bonus
  exact List.sum_le_sum (fun t _ => synergy_for_trait_cons_le c l t)

/-- Adding a companion never lowers the rarity bonus. -/
theorem rarity_bonus_cons_le (c : Companion) (l : List Companion) :
    rarity_bonus l ≤ rarity_bonus (c :: l) := by
  unfold rarity_bonus
  simp only [List.map_cons, List.sum_cons]
  exact Nat.le_add_left _ _

/-- Adding a companion never lowers a rarity count. -/
theorem rarity_count_cons_le (c : Companion) (l : List Companion) (r : Rarity) :
    rarity_count l r ≤ rarity_count (c :: l) r := by
  unfold rarity_count
  rw [List.filter_cons]
  split
  · exact Nat.le_succ _
  · exact Nat.le_refl _

/-- The collection-size achievement tier is monotone in the size. -/
theorem collection_size_bonus_mono {m n : Nat} (h : m ≤ n) :
    collection_size_bonus m ≤ collection_size_bonus n := by
  unfold collection_size_bonus
  split_ifs <;> omega

/-- The Legendary-count achievement tier is monotone in the count. -/
theorem legendary_tier_bonus_mono {m n : Nat} (h : m ≤ n) :
    legendary_tier_bonus m ≤ legendary_tier_bonus n := by
  unfold legendary_tier_bonus
  split_ifs <;> omega

/-- Adding a companion never loses the diversity achievement. -/
theorem diversity_bonus_cons_le (c : Companion) (l : List Companion) :
    diversity_bonus l ≤ diversity_bonus (c :: l) := by
  unfold diversity_bonus
  split_ifs with h1 h2
  · exact Nat.le_refl _
  · exact absurd
      ⟨Nat.lt_of_lt_of_le h1.1 (rarity_count_cons_le c l Rarity.Common),
        Nat.lt_of_lt_of_le h1.2.1 (rarity_count_cons_le c l Rarity.Rare),
        Nat.lt_of_lt_of_le h1.2.2 (rarity_count_cons_le c l Rarity.Legendary)⟩ h2
  · exact Nat.zero_le _
  · exact Nat.le_refl _

/-- Adding a companion never loses the high-stat achievement. -/
theorem perfectionist_bonus_cons_le (c : Companion) (l : List Companion) :
    perfectionist_bonus l ≤ perfectionist_bonus (c :: l) := by
  unfold perfectionist_bonus
  split_ifs with h1 h2
  · exact Nat.le_refl _
  · exact absurd (by simp only [List.any_cons, h1, Bool.or_true]) h2
  · exact Nat.zero_le _
  · exact Nat.le_refl _

/-- Adding a companion never lowers the achievement bonus. -/
theorem achievement_bonus_cons_le (c : Companion) (l : List Companion) :
    achievement_bonus l ≤ achievement_bonus (c :: l) := by
  unfold achievement_bonus
  exact Nat.add_le_add
    (Nat.add_le_add
      (Nat.add_le_add
        (collection_size_bonus_mono (by simp only [List.length_cons]; exact Nat.le_succ _))
        (legendary_tier_bonus_mono (rarity_count_cons_le c l Rarity.Legendary)))
      (diversity_bonus_cons_le c l))
    (perfectionist_bonus_cons_le c l)

/-- C9: the collection score is monotone in the owned set: adding a
companion not yet owned never lowers the base, synergy, rarity or
achievement components, nor the total. -/
theorem collection_score_monotone (l : List Companion) (c : Companion)
    (h : c ∉ l) :
    base_score l ≤ base_score (c :: l) ∧
    synergy_bonus l ≤ synergy_bonus (c :: l) ∧
    rarity_bonus l ≤ rarity_bonus (c :: l) ∧
    achievement_bonus l ≤ achievement_bonus (c :: l) ∧
    (calculate_collection_score l).total ≤
      (calculate_collection_score (c :: l)).total := by
  refine ⟨base_score_cons_le c l, synergy_bonus_cons_le c l, rarity_bonus_cons_le c l,
    achievement_bonus_cons_le c l, ?_⟩
  rw [calculate_collection_score_total, calculate_collection_score_total]
  exact Nat.add_le_add
    (Nat.add_le_add
      (Nat.add_le_add (base_score_cons_le c l) (synergy_bonus_cons_le c l))
      (rarity_bonus_cons_le c l))
    (achievement_bonus_cons_le c l)

/-- Witness for C9: adding `comp_b` to the singleton collection `[comp_a]`
does not lower the total. -/
theorem collection_score_monotone_witness :
    comp_b ∉ [comp_a] ∧
    (calculate_collection_score [comp_a]).total ≤
      (calculate_collection_score (comp_b :: [comp_a])).total :=
  ⟨by decide, (collection_score_monotone [comp_a] comp_b (by decide)).2.2.2.2⟩
